import Mathlib

/-!
# Verification of the dark-cli upload pipeline (src/main.rs)

A shallow embedding of the core pipeline of `dark-cli`:
session authentication (`cookie_and_csrf`), file collection and multipart
body construction (`form_body`), and the `main` pipeline with its
network / print side effects modelled as an explicit effect trace.

Network I/O and the filesystem are modelled as explicit inputs (a `World`
record): the HTTP response the auth probe would receive, a tree-shaped
filesystem that the `walkdir` traversal walks, and the outcome of the
upload send.  All functions on those inputs are translated directly from
`src/main.rs`.
-/

set_option autoImplicit false

namespace Dark

/-- The `DarkError` enum of src/main.rs (one constructor per variant;
payloads that are foreign error values are dropped, as the code drops them
via its blanket `From` conversions into `Unknown`). -/
inductive DarkError where
  | auth (status : Nat)
  | noFilesFound (spec : String)
  | upload
  | missingArgument (name : String)
  | missingFilename
  | regexErr
  | missingSetCookie
  | unknown
deriving DecidableEq, Repr

/-- An HTTP response as seen by `cookie_and_csrf`: status code, the raw
`Set-Cookie` header (absent or its verbatim string value), and the body. -/
structure HttpResponse where
  status : Nat
  setCookie : Option String
  body : String
deriving DecidableEq, Repr

/-- Outcome of `cookie_and_csrf`: the Rust function either returns
`Ok((cookie, csrf))`, returns `Err(e)`, or panics (the explicit
`panic!("Error authing: ...")` on a transport error of the probe). -/
inductive AuthResult where
  | ok (cookie : String) (csrf : String)
  | err (e : DarkError)
  | panicked
deriving DecidableEq, Repr

/-- The literal text preceding the capture group in the regex
`const csrfToken = "([^"]*)";` of src/main.rs line 112. -/
def csrfLit : List Char := "const csrfToken = \"".data

/-- `dropLit lit s` returns `some rest` when `s = lit ++ rest`,
otherwise `none` (matching a literal regex fragment at the current
position). -/
def dropLit : List Char → List Char → Option (List Char)
  | [], s => some s
  | _ :: _, [] => none
  | p :: ps, c :: cs => if p = c then dropLit ps cs else none

/-- Attempt to match `const csrfToken = "([^"]*)";` at the head of `s`,
returning the capture group.  The capture `[^"]*` takes the maximal run of
non-quote characters; the match then requires the literal `";` to follow. -/
def captureAt (s : List Char) : Option (List Char) :=
  match dropLit csrfLit s with
  | none => none
  | some rest =>
    match rest.drop (rest.takeWhile (fun c => c ≠ '"')).length with
    | '"' :: ';' :: _ => some (rest.takeWhile (fun c => c ≠ '"'))
    | _ => none

/-- Leftmost-first scan for the regex: the first position at which
`captureAt` succeeds yields the capture (this is
`csrf_re.captures_iter(..).next()` of src/main.rs lines 113–116). -/
def findCsrf : List Char → Option (List Char)
  | [] => none
  | c :: rest =>
    match captureAt (c :: rest) with
    | some cap => some cap
    | none => findCsrf rest

/-- The CSRF token extracted from a response body: the first capture of the
first match of `const csrfToken = "([^"]*)";`. -/
def extractCsrf (body : String) : Option String :=
  (findCsrf body.data).map fun cs => String.mk cs

/-- `cookie_and_csrf` of src/main.rs lines 82–120.  The network call itself
is modelled by its outcome `resp`: `Except.error` is a transport-level
failure of the probe (connection refused, TLS error, DNS failure), on which
the code panics; `Except.ok` carries the response.  Then: status must be
200 (else `Auth(status)`), the `Set-Cookie` header must be present (else
`MissingSetCookie`), and the body must match the CSRF regex (else
`Regex()`, here `regexErr`). -/
def cookieAndCsrf (resp : Except String HttpResponse) : AuthResult :=
  match resp with
  | .error _ => .panicked
  | .ok r =>
    if r.status = 200 then
      match r.setCookie with
      | none => .err .missingSetCookie
      | some cookie =>
        match extractCsrf r.body with
        | none => .err .regexErr
        | some csrf => .ok cookie csrf
    else
      .err (.auth r.status)

/-- Does `cookie_and_csrf` return a plain `Err` value (as opposed to
succeeding or panicking)? -/
def isErrResult : AuthResult → Bool
  | .err _ => true
  | _ => false

/-- Did `cookie_and_csrf` succeed? -/
def authOk : AuthResult → Bool
  | .ok _ _ => true
  | _ => false

/-- Did `cookie_and_csrf` fail the status check with `Auth(_)`? -/
def failsAuthStatus : AuthResult → Bool
  | .err (.auth _) => true
  | _ => false

mutual

/-- A filesystem node, as seen by the `walkdir` traversal with
`follow_links(true)`: a regular file with its on-disk size (a metadata
stat returns this size), a directory with named children, or an entry the
traversal cannot read (yielding an `Err` item, as `walkdir` does).
Symbolic links are modelled as already resolved into the tree. -/
inductive FSNode where
  | file (size : Nat)
  | dir (children : FSChildren)
  | unreadable
deriving DecidableEq

/-- The named children of a directory, in traversal order. -/
inductive FSChildren where
  | nil
  | cons (name : String) (node : FSNode) (rest : FSChildren)
deriving DecidableEq

end

/-- A filesystem: each root path string either resolves to a node or does
not exist (`none`, which makes `WalkDir` yield a single `Err` item). -/
def FS := String → Option FSNode

/-- One item yielded by the `walkdir` iterator: an `Ok` entry (its path as
root spec plus relative components, its file type, its stat size) or an
`Err` item. -/
inductive WalkItem where
  | okItem (root : String) (rel : List String) (isFile : Bool) (size : Nat)
  | errItem
deriving DecidableEq, Repr

mutual

/-- Depth-first traversal of a node: `WalkDir` yields the entry itself and
then, for a directory, its contents recursively. -/
def walkNode (root : String) (rel : List String) : FSNode → List WalkItem
  | .file sz => [.okItem root rel true sz]
  | .dir cs => .okItem root rel false 0 :: walkChildren root rel cs
  | .unreadable => [.errItem]
termination_by structural n => n

/-- Traversal of a directory's children, in order. -/
def walkChildren (root : String) (rel : List String) : FSChildren → List WalkItem
  | .nil => []
  | .cons n node rest => walkNode root (rel ++ [n]) node ++ walkChildren root rel rest
termination_by structural c => c

end

/-- `WalkDir::new(root).follow_links(true)` on one root path: a nonexistent
root yields a single `Err` item; otherwise the tree is walked depth-first. -/
def walkRoot (fs : FS) (root : String) : List WalkItem :=
  match fs root with
  | none => [.errItem]
  | some node => walkNode root [] node

/-- Splitting a character list on a separator character; the accumulator
holds the current fragment reversed.  Rust `str::split(c)` semantics:
empty fragments between consecutive separators are kept, and the empty
string splits to one empty fragment. -/
def splitCharAux (sep : Char) : List Char → List Char → List (List Char)
  | [], acc => [acc.reverse]
  | c :: cs, acc =>
    if c = sep then acc.reverse :: splitCharAux sep cs []
    else splitCharAux sep cs (c :: acc)

/-- Split a string on a separator character (Rust `str::split(c)`). -/
def splitChar (sep : Char) (s : String) : List String :=
  (splitCharAux sep s.data []).map fun cs => String.mk cs

/-- `paths.split(' ')` of src/main.rs line 124: split on single spaces
(empty fragments between consecutive spaces are kept, as in Rust). -/
def splitPaths (paths : String) : List String := splitChar ' ' paths

/-- One discovered regular file: its root spec, relative path components
under that root, and its size from the metadata stat at collection time. -/
structure FileEntry where
  root : String
  rel : List String
  size : Nat
deriving DecidableEq, Repr

/-- `filter_map(|e| e.ok())` of src/main.rs line 127: keep `Ok` items,
silently dropping `Err` items. -/
def itemToOk : WalkItem → Option (String × List String × Bool × Nat)
  | .okItem r rel f sz => some (r, rel, f, sz)
  | .errItem => none

/-- The file-discovery part of `form_body` (src/main.rs lines 123–129):
walk every root from `paths.split(' ')`, drop `Err` items silently
(`filter_map(|e| e.ok())`), and keep entries whose type is regular file
(`filter(|entry| entry.file_type().is_file())`). -/
def collectFiles (fs : FS) (paths : String) : List FileEntry :=
  (((((splitPaths paths).map (walkRoot fs)).flatten.filterMap itemToOk).filter
      fun x => x.2.2.1).map fun x => ⟨x.1, x.2.1, x.2.2.2⟩)

/-- `Path::file_name()` of a path string, approximated for well-formed
paths: split on `/`, ignore empty components, and return the last one
unless it is `..` (for which Rust returns `None`). -/
def fileNameOf (p : String) : Option String :=
  match ((splitChar '/' p).filter fun s => s != "" && s != ".").getLast? with
  | none => none
  | some s => if s = ".." then none else some s

/-- `file.path().file_name()` for a walked entry: the last relative
component when the entry lies below its root, else the root path's own
final component. -/
def entryFileName (e : FileEntry) : Option String :=
  match e.rel.getLast? with
  | some n => some n
  | none => fileNameOf e.root

/-- One part of the multipart form built by `form.file(filename, path)`:
the form field name (first argument, the computed base name) and the
filename metadata (derived by reqwest from the path's final component —
the same base name). -/
structure FormPart where
  fieldName : String
  fileNameMeta : String
deriving DecidableEq, Repr

/-- Outcome of `form_body`: the multipart form (as its ordered parts) and
the accumulated total length, or a `DarkError`. -/
inductive FBResult where
  | ok (parts : List FormPart) (totalLen : Nat)
  | err (e : DarkError)
deriving DecidableEq, Repr

/-- The `for file in files` loop of src/main.rs lines 139–155: accumulate
`len += file.metadata()?.len()`, extract the base name (failing with
`MissingFilename` when the path has no final component), and append one
part per file to the form, in order. -/
def buildForm : List FileEntry → Nat → List FormPart → FBResult
  | [], len, acc => .ok acc.reverse len
  | f :: rest, len, acc =>
    match entryFileName f with
    | none => .err .missingFilename
    | some n => buildForm rest (len + f.size) (⟨n, n⟩ :: acc)

/-- `form_body` of src/main.rs lines 122–158: if the discovery yields no
files at all, fail with `NoFilesFound(paths.to_string())` — the path
specification exactly as given; otherwise run the form-building loop. -/
def formBody (fs : FS) (paths : String) : FBResult :=
  let files := collectFiles fs paths
  if files.isEmpty then .err (.noFilesFound paths)
  else buildForm files 0 []

/-- Validated CLI inputs to `main` (argument parsing itself is out of
scope; these are the values `main` reads after `get_matches`). -/
structure Args where
  user : String
  password : String
  canvas : String
  paths : String
  dev : Bool
  dryRun : Bool

/-- Outcome of the upload send and the subsequent `resp.text()?`:
the send can fail at transport level (`DarkError::Upload(..)`), reading
the response text can fail (blanket-converted to `Unknown`), or the raw
response body is obtained. -/
inductive UploadWire where
  | sendErr
  | textErr
  | okText (body : String)

/-- The external world `main` runs against: what the auth probe would
receive, the filesystem, and what the upload send would produce. -/
structure World where
  authResp : Except String HttpResponse
  fs : FS
  uploadResp : UploadWire

/-- Observable side effects of one run, in order.  Network effects are
`authRequest` (the GET auth probe of `cookie_and_csrf`) and
`uploadRequest` (the multipart POST); the rest are console prints. -/
inductive Effect where
  | authRequest (url : String)
  | printSize (totalLen : Nat)
  | printRequest (method : String) (url : String) (headers : List (String × String))
  | printForm (fields : List String)
  | uploadRequest (url : String) (headers : List (String × String)) (parts : List FormPart)
  | printResponse (body : String)
deriving DecidableEq, Repr

/-- Result of the whole `main`: `Ok(())`, `Err(e)`, or a panic. -/
inductive RunResult where
  | ok
  | err (e : DarkError)
  | panicked
deriving DecidableEq, Repr

/-- Host selection of src/main.rs lines 221–225. -/
def hostOf (dev : Bool) : String :=
  if dev then "http://darklang.localhost:8000" else "https://darklang.com"

/-- The auth probe URL `{host}/a/{canvas}` (src/main.rs line 88). -/
def authUrl (a : Args) : String := hostOf a.dev ++ "/a/" ++ a.canvas

/-- The upload URL `{host}/api/{canvas}/static_assets` (line 242). -/
def uploadUrl (a : Args) : String :=
  hostOf a.dev ++ "/api/" ++ a.canvas ++ "/static_assets"

/-- `main` of src/main.rs lines 228–263, as a function from validated
arguments and the external world to the run result and the ordered trace
of observable effects.  Stage order as in the code: `cookie_and_csrf`
(issuing the auth network request) first, then `form_body`, then the size
print, then either the dry-run prints or the upload POST. -/
def mainRun (a : Args) (w : World) : RunResult × List Effect :=
  match cookieAndCsrf w.authResp with
  | .panicked => (.panicked, [.authRequest (authUrl a)])
  | .err e => (.err e, [.authRequest (authUrl a)])
  | .ok cookie csrf =>
    match formBody w.fs a.paths with
    | .err e => (.err e, [.authRequest (authUrl a)])
    | .ok parts len =>
      let headers := [("cookie", cookie), ("x-csrf-token", csrf)]
      if a.dryRun then
        (.ok, [.authRequest (authUrl a), .printSize len,
               .printRequest "POST" (uploadUrl a) headers,
               .printForm (parts.map FormPart.fieldName)])
      else
        match w.uploadResp with
        | .sendErr =>
          (.err .upload, [.authRequest (authUrl a), .printSize len,
                          .uploadRequest (uploadUrl a) headers parts])
        | .textErr =>
          (.err .unknown, [.authRequest (authUrl a), .printSize len,
                           .uploadRequest (uploadUrl a) headers parts])
        | .okText body =>
          (.ok, [.authRequest (authUrl a), .printSize len,
                 .uploadRequest (uploadUrl a) headers parts,
                 .printResponse body])

/-- Is an effect a network side effect? -/
def isNetwork : Effect → Bool
  | .authRequest _ => true
  | .uploadRequest _ _ _ => true
  | _ => false

/-- Does a trace contain the upload POST? -/
def hasUpload (tr : List Effect) : Bool :=
  tr.any fun
    | .uploadRequest _ _ _ => true
    | _ => false

/-- How many network requests a trace contains. -/
def networkCount (tr : List Effect) : Nat :=
  (tr.filter isNetwork).length

/-- Does a trace contain the dry-run rendering of the request
(method, URL, headers)? -/
def hasPrintRequest (tr : List Effect) : Bool :=
  tr.any fun
    | .printRequest _ _ _ => true
    | _ => false

/-- Does a trace contain the dry-run rendering of the form's field list? -/
def hasPrintForm (tr : List Effect) : Bool :=
  tr.any fun
    | .printForm _ => true
    | _ => false

/-! ## Concrete fixtures (filesystems, arguments, worlds used in
witnesses and counterexamples) -/

/-- A directory holding one regular file `x.txt` of 10 bytes. -/
def demoChildrenA : FSChildren := .cons "x.txt" (.file 10) .nil

/-- A directory holding one regular file `y.png` of 20 bytes. -/
def demoChildrenB : FSChildren := .cons "y.png" (.file 20) .nil

/-- A filesystem with roots `/a` (containing `x.txt`, 10 bytes) and `/b`
(containing `y.png`, 20 bytes). -/
def demoFS : FS := fun r =>
  if r = "/a" then some (.dir demoChildrenA)
  else if r = "/b" then some (.dir demoChildrenB)
  else none

/-- A filesystem where `/a` and `/b` each contain a file with the same
base name `z.txt` (sizes 1 and 2). -/
def dupFS : FS := fun r =>
  if r = "/a" then some (.dir (.cons "z.txt" (.file 1) .nil))
  else if r = "/b" then some (.dir (.cons "z.txt" (.file 2) .nil))
  else none

/-- A filesystem in which no root path exists. -/
def emptyFS : FS := fun _ => none

/-- A filesystem where `/u` exists but cannot be read; everything else is
nonexistent. -/
def unreadableFS : FS := fun r =>
  if r = "/u" then some .unreadable else none

/-- Validated CLI arguments for the demo runs. -/
def demoArgs : Args := ⟨"alice", "secret", "demo", "/a /b", false, false⟩

/-- The demo arguments with `--dry-run`. -/
def demoArgsDry : Args := ⟨"alice", "secret", "demo", "/a /b", false, true⟩

/-- A successful auth-probe response: 200, cookie `ck`, body containing
`const csrfToken = "tk";`. -/
def goodResp : HttpResponse := ⟨200, some "ck", "const csrfToken = \"tk\";"⟩

/-- A world in which authentication and upload succeed against `demoFS`. -/
def demoWorld : World := ⟨.ok goodResp, demoFS, .okText "uploaded"⟩

/-- A world in which authentication succeeds but no root path exists, so
file collection discovers nothing. -/
def noFilesWorld : World := ⟨.ok goodResp, emptyFS, .okText "uploaded"⟩

/-! ## Helper lemmas -/

theorem dropLit_append (p s : List Char) : dropLit p (p ++ s) = some s := by
  induction p with
  | nil => rfl
  | cons c cs ih => simp [dropLit, ih]

theorem takeWhile_until_quote (t r : List Char) (h : '"' ∉ t) :
    (t ++ '"' :: r).takeWhile (fun c => c ≠ '"') = t := by
  induction t with
  | nil => simp [List.takeWhile]
  | cons c cs ih =>
    simp only [List.mem_cons, not_or] at h
    have hc : c ≠ '"' := fun e => h.1 e.symm
    have step : ((c :: cs) ++ '"' :: r).takeWhile (fun c => decide (c ≠ '"'))
        = c :: (cs ++ '"' :: r).takeWhile (fun c => decide (c ≠ '"')) := by
      simp [List.takeWhile_cons, hc]
    rw [step, ih h.2]

theorem captureAt_canonical (t suf : List Char) (h : '"' ∉ t) :
    captureAt (csrfLit ++ (t ++ '"' :: ';' :: suf)) = some t := by
  unfold captureAt
  rw [dropLit_append]
  dsimp only
  rw [takeWhile_until_quote t (';' :: suf) h, List.drop_left]
  rfl

theorem findCsrf_head (l cap : List Char) (h : captureAt l = some cap) :
    findCsrf l = some cap := by
  cases l with
  | nil =>
    have hnone : captureAt ([] : List Char) = none := by decide
    rw [hnone] at h
    exact absurd h (by simp)
  | cons c cs =>
    unfold findCsrf
    rw [h]

theorem findCsrf_canonical (t suf : List Char) (h : '"' ∉ t) :
    findCsrf (csrfLit ++ t ++ '"' :: ';' :: suf) = some t := by
  rw [List.append_assoc]
  exact findCsrf_head _ _ (captureAt_canonical t suf h)

/-! ## Claim theorems: authentication (C2–C5) -/

/-- C2 counterexample: on a transport-level failure of the auth probe, the
code does not return any error value at all — `cookie_and_csrf` panics
(the explicit `panic!("Error authing: ...")` at src/main.rs line 95), so
in particular no `TransportFailure`-like error value is produced. -/
theorem transport_failure_counterexample :
    cookieAndCsrf (.error "connection refused") = .panicked ∧
    isErrResult (cookieAndCsrf (.error "connection refused")) = false := by
  decide

/-- C2 (amended): a transport-level failure of the authentication probe
makes `cookie_and_csrf` panic, aborting the whole run immediately — the
run's result is `panicked`, its only effect is the single auth request,
and no retry ever occurs (the trace holds exactly one network request). -/
theorem transport_failure_fatal (a : Args) (w : World) (msg : String)
    (h : w.authResp = .error msg) :
    mainRun a w = (.panicked, [.authRequest (authUrl a)]) ∧
    networkCount (mainRun a w).2 = 1 := by
  constructor
  · simp [mainRun, cookieAndCsrf, h]
  · simp [mainRun, cookieAndCsrf, h, networkCount, isNetwork]

/-- C2 witness: a concrete transport failure aborts the concrete run with
a panic after exactly one (non-retried) network request. -/
theorem transport_failure_fatal_witness :
    mainRun ⟨"alice", "secret", "demo", "p", false, false⟩
        ⟨.error "dns", fun _ => none, .okText "r"⟩ =
      (.panicked, [.authRequest "https://darklang.com/a/demo"]) ∧
    networkCount (mainRun ⟨"alice", "secret", "demo", "p", false, false⟩
        ⟨.error "dns", fun _ => none, .okText "r"⟩).2 = 1 :=
  transport_failure_fatal _ _ "dns" rfl

/-- C3: the authenticator gets past the status check iff the HTTP status
is 200 — it fails with `Auth(s)` (the spec's `AuthFailure(s)`) exactly
when the status differs from 200, and in that case the numeric status code
is preserved in the error. -/
theorem auth_status_check (resp : HttpResponse) :
    (failsAuthStatus (cookieAndCsrf (.ok resp)) = true ↔ resp.status ≠ 200) ∧
    (resp.status ≠ 200 → cookieAndCsrf (.ok resp) = .err (.auth resp.status)) := by
  constructor
  · by_cases h : resp.status = 200
    · simp only [cookieAndCsrf, h, if_pos rfl, ne_eq, not_true_eq_false, iff_false]
      cases hc : resp.setCookie with
      | none => simp [failsAuthStatus]
      | some c =>
        cases he : extractCsrf resp.body with
        | none => simp [failsAuthStatus]
        | some t => simp [failsAuthStatus]
    · simp [cookieAndCsrf, h, failsAuthStatus]
  · intro h
    simp [cookieAndCsrf, h]

/-- C3 witness: a concrete 401 auth probe fails with `Auth(401)`. -/
theorem auth_status_check_witness :
    cookieAndCsrf (.ok ⟨401, some "session=s", "body"⟩) =
      .err (.auth 401) :=
  (auth_status_check ⟨401, some "session=s", "body"⟩).2 (by decide)

/-- C4: a 200 auth-probe response without a `Set-Cookie` header fails with
`MissingSetCookie` (the spec's `MissingSessionCookie`) regardless of the
response body; when the header is present its raw value `c` is taken
verbatim as the session cookie — the call either fails later on the CSRF
scan or succeeds with exactly that cookie value. -/
theorem missing_cookie_check (resp : HttpResponse) :
    (resp.status = 200 → resp.setCookie = none →
      cookieAndCsrf (.ok resp) = .err .missingSetCookie) ∧
    (∀ c, resp.status = 200 → resp.setCookie = some c →
      cookieAndCsrf (.ok resp) = .err .regexErr ∨
      ∃ t, cookieAndCsrf (.ok resp) = .ok c t) := by
  constructor
  · intro h hc
    simp [cookieAndCsrf, h, hc]
  · intro c h hc
    cases he : extractCsrf resp.body with
    | none => left; simp [cookieAndCsrf, h, hc, he]
    | some t => right; exact ⟨t, by simp [cookieAndCsrf, h, hc, he]⟩

/-- C4 witness: a concrete cookie-less 200 response (with a body that even
contains a CSRF token) fails with `MissingSetCookie`; a concrete response
with the header succeeds with the raw header value as cookie. -/
theorem missing_cookie_check_witness :
    cookieAndCsrf (.ok ⟨200, none, "const csrfToken = \"tk\";"⟩) =
      .err .missingSetCookie ∧
    (cookieAndCsrf (.ok ⟨200, some "raw; Path=/; HttpOnly", "x"⟩) =
        .err .regexErr ∨
      ∃ t, cookieAndCsrf (.ok ⟨200, some "raw; Path=/; HttpOnly", "x"⟩) =
        .ok "raw; Path=/; HttpOnly" t) :=
  ⟨(missing_cookie_check ⟨200, none, "const csrfToken = \"tk\";"⟩).1 rfl rfl,
   (missing_cookie_check ⟨200, some "raw; Path=/; HttpOnly", "x"⟩).2
     "raw; Path=/; HttpOnly" rfl rfl⟩

/-- C5: the CSRF token is the capture of the first match of
`const csrfToken = "([^"]*)";` — the body consisting of exactly
`const csrfToken = "abc123";` yields token `abc123`; more generally any
body starting with the literal, a quote-free capture and `";` yields that
capture; and when no match exists in the body of a 200 response carrying a
cookie, the authenticator fails with `Regex()` (the spec's
`TokenExtractionFailure`). -/
theorem csrf_extraction (t suf : List Char) (resp : HttpResponse)
    (c : String) (hq : '"' ∉ t) :
    extractCsrf "const csrfToken = \"abc123\";" = some "abc123" ∧
    findCsrf (csrfLit ++ t ++ '"' :: ';' :: suf) = some t ∧
    (resp.status = 200 → resp.setCookie = some c →
      extractCsrf resp.body = none →
      cookieAndCsrf (.ok resp) = .err .regexErr) := by
  refine ⟨by decide, findCsrf_canonical t suf hq, ?_⟩
  intro h hc he
  simp [cookieAndCsrf, h, hc, he]

/-- C5 witness: concrete instances — the quote-free capture lemma applied
to the token `tok` with a nonempty suffix, and a concrete 200+cookie
response whose body has no match failing with `Regex()`. -/
theorem csrf_extraction_witness :
    extractCsrf "const csrfToken = \"abc123\";" = some "abc123" ∧
    findCsrf (csrfLit ++ "tok".data ++ '"' :: ';' :: " rest".data) =
      some "tok".data ∧
    (cookieAndCsrf (.ok ⟨200, some "ck", "<html>no token</html>"⟩) =
      .err .regexErr) := by
  have h := csrf_extraction "tok".data " rest".data
    ⟨200, some "ck", "<html>no token</html>"⟩ "ck" (by decide)
  exact ⟨h.1, h.2.1, h.2.2 rfl rfl (by decide)⟩

/-! ## Claim theorems: file collection and form building (C6–C8, C10) -/

theorem buildForm_ok_len (l : List FileEntry) (len : Nat) (acc : List FormPart)
    (parts : List FormPart) (out : Nat)
    (h : buildForm l len acc = .ok parts out) :
    out = len + (l.map FileEntry.size).sum := by
  induction l generalizing len acc with
  | nil =>
    simp only [buildForm, FBResult.ok.injEq] at h
    simp [← h.2]
  | cons f rest ih =>
    simp only [buildForm] at h
    cases hn : entryFileName f with
    | none => rw [hn] at h; exact absurd h (by simp)
    | some n =>
      rw [hn] at h
      have hrec := ih (len + f.size) (⟨n, n⟩ :: acc) h
      rw [hrec]
      simp [Nat.add_assoc]

theorem buildForm_ok_parts (l : List FileEntry) (len : Nat)
    (acc parts : List FormPart) (out : Nat)
    (h : buildForm l len acc = .ok parts out) :
    ∃ ps, parts = acc.reverse ++ ps ∧
      List.Forall₂
        (fun e p => entryFileName e = some p.fieldName ∧
          p.fileNameMeta = p.fieldName) l ps := by
  induction l generalizing len acc with
  | nil =>
    simp only [buildForm, FBResult.ok.injEq] at h
    exact ⟨[], by simp [← h.1], .nil⟩
  | cons f rest ih =>
    simp only [buildForm] at h
    cases hn : entryFileName f with
    | none => rw [hn] at h; exact absurd h (by simp)
    | some n =>
      rw [hn] at h
      obtain ⟨ps, hps, hf⟩ := ih (len + f.size) (⟨n, n⟩ :: acc) h
      refine ⟨⟨n, n⟩ :: ps, ?_, List.Forall₂.cons ⟨hn, rfl⟩ hf⟩
      rw [hps]
      simp

theorem formBody_of_collect_nil (fs : FS) (paths : String)
    (h : collectFiles fs paths = []) :
    formBody fs paths = .err (.noFilesFound paths) := by
  simp [formBody, h]

/-- C6: whenever the recursive traversal of all root paths yields zero
regular files (the discovered file list is empty), `form_body` fails with
`NoFilesFound(paths)` carrying the path specification exactly as given. -/
theorem no_files_found_err (fs : FS) (paths : String)
    (h : collectFiles fs paths = []) :
    formBody fs paths = .err (.noFilesFound paths) :=
  formBody_of_collect_nil fs paths h

/-- C6 witness: a path spec whose roots are only empty directories (here:
nonexistent or empty-directory roots) fails with `NoFilesFound` carrying
the spec string verbatim. -/
theorem no_files_found_err_witness :
    formBody (fun r => if r = "/e" then some (.dir .nil) else none)
        "/e /missing" = .err (.noFilesFound "/e /missing") :=
  no_files_found_err _ "/e /missing" (by decide)

/-- C7: whenever `form_body` returns a batch (the form plus its total
length), the total equals the sum of the sizes of every discovered regular
file, and at least one file was discovered. -/
theorem total_size_is_sum (fs : FS) (paths : String)
    (parts : List FormPart) (len : Nat)
    (h : formBody fs paths = .ok parts len) :
    len = ((collectFiles fs paths).map FileEntry.size).sum ∧
    collectFiles fs paths ≠ [] := by
  simp only [formBody] at h
  by_cases he : (collectFiles fs paths).isEmpty
  · rw [if_pos he] at h; exact absurd h (by simp)
  · rw [if_neg he] at h
    have hlen := buildForm_ok_len _ 0 [] parts len h
    refine ⟨by simpa using hlen, ?_⟩
    intro hnil
    rw [hnil] at he
    exact he rfl

/-- C7 witness: over `demoFS` (files of 10 and 20 bytes) the batch total
is 30 = 10 + 20, the sum of the discovered files' sizes. -/
theorem total_size_is_sum_witness :
    30 = ((collectFiles demoFS "/a /b").map FileEntry.size).sum ∧
    collectFiles demoFS "/a /b" ≠ [] :=
  total_size_is_sum demoFS "/a /b" [⟨"x.txt", "x.txt"⟩, ⟨"y.png", "y.png"⟩]
    30 (by decide)

/-- C8: whenever `form_body` returns a form, its parts are in one-to-one
order-preserving correspondence with the collected files: each part's form
field name is the file's base name, the filename metadata equals the field
name, and the part count equals the file count (so repeated base names
from different directories yield repeated parts — never deduplicated or
rejected). -/
theorem form_parts_per_entry (fs : FS) (paths : String)
    (parts : List FormPart) (len : Nat)
    (h : formBody fs paths = .ok parts len) :
    List.Forall₂
      (fun e p => entryFileName e = some p.fieldName ∧
        p.fileNameMeta = p.fieldName)
      (collectFiles fs paths) parts ∧
    parts.length = (collectFiles fs paths).length := by
  simp only [formBody] at h
  by_cases he : (collectFiles fs paths).isEmpty
  · rw [if_pos he] at h; exact absurd h (by simp)
  · rw [if_neg he] at h
    obtain ⟨ps, hps, hf⟩ := buildForm_ok_parts _ 0 [] parts len h
    simp only [List.reverse_nil, List.nil_append] at hps
    subst hps
    exact ⟨hf, hf.length_eq.symm⟩

/-- C8 witness: over `dupFS`, whose two directories both hold a file named
`z.txt`, the form has two parts, both named `z.txt`, in batch order —
duplicates are passed through. -/
theorem form_parts_per_entry_witness :
    List.Forall₂
      (fun (e : FileEntry) (p : FormPart) =>
        entryFileName e = some p.fieldName ∧ p.fileNameMeta = p.fieldName)
      (collectFiles dupFS "/a /b")
      [⟨"z.txt", "z.txt"⟩, ⟨"z.txt", "z.txt"⟩] ∧
    ([⟨"z.txt", "z.txt"⟩, ⟨"z.txt", "z.txt"⟩] : List FormPart).length =
      (collectFiles dupFS "/a /b").length :=
  form_parts_per_entry dupFS "/a /b" [⟨"z.txt", "z.txt"⟩, ⟨"z.txt", "z.txt"⟩]
    3 (by decide)

theorem filterMap_ok_bad_roots (fs : FS) (roots : List String)
    (h : ∀ r ∈ roots, fs r = none ∨ fs r = some .unreadable) :
    ((roots.map (walkRoot fs)).flatten.filterMap itemToOk) = [] := by
  induction roots with
  | nil => simp
  | cons a as ih =>
    simp only [List.map_cons, List.flatten_cons, List.filterMap_append]
    have ha : walkRoot fs a = [.errItem] := by
      rcases h a (List.mem_cons_self a as) with h1 | h1 <;>
        simp [walkRoot, h1, walkNode]
    rw [ha, ih fun r hm => h r (List.mem_cons_of_mem a hm)]
    simp [itemToOk]

/-- C10: every traversal error is silently discarded — when every root
path of the spec is nonexistent or unreadable, the traversal discovers
nothing, and the run fails with `NoFilesFound` (never with any I/O-error
value such as `Unknown`). -/
theorem walk_errors_dropped (fs : FS) (paths : String)
    (h : ∀ r ∈ splitPaths paths, fs r = none ∨ fs r = some .unreadable) :
    collectFiles fs paths = [] ∧
    formBody fs paths = .err (.noFilesFound paths) := by
  have hc : collectFiles fs paths = [] := by
    unfold collectFiles
    rw [filterMap_ok_bad_roots fs (splitPaths paths) h]
    rfl
  exact ⟨hc, formBody_of_collect_nil fs paths hc⟩

/-- C10 witness: with one unreadable root and one nonexistent root, the
run fails with `NoFilesFound` (and not with any I/O-error value). -/
theorem walk_errors_dropped_witness :
    collectFiles unreadableFS "/u /missing" = [] ∧
    formBody unreadableFS "/u /missing" =
      .err (.noFilesFound "/u /missing") :=
  walk_errors_dropped unreadableFS "/u /missing" (by decide)

/-! ## Claim theorems: pipeline order and dry run (C1, C9) -/

/-- C1 counterexample: `main` calls `cookie_and_csrf` (which issues the
auth network request) before `form_body`.  In a world where authentication
succeeds but no root path exists, the run fails in file collection with
`NoFilesFound`, yet its effect trace already contains one network request
(the auth probe) — so a file-collection failure does *not* occur before
any network request is made, and the stage order is not
collect → authenticate. -/
theorem collect_after_network_counterexample :
    (mainRun demoArgs noFilesWorld).1 = .err (.noFilesFound "/a /b") ∧
    networkCount (mainRun demoArgs noFilesWorld).2 = 1 ∧
    (mainRun demoArgs noFilesWorld).2 =
      [.authRequest "https://darklang.com/a/demo"] := by
  decide

/-- C1 (amended): the pipeline executes authenticate (the auth network
request) first, then collect-files-and-build-body, then send or print;
every trace starts with the auth request, a failed authentication aborts
the run with no further effect, and a file-collection/build failure
aborts the run before the upload network request is issued (but after the
auth network request). -/
theorem pipeline_stage_order (a : Args) (w : World) :
    (mainRun a w).2.head? = some (.authRequest (authUrl a)) ∧
    (authOk (cookieAndCsrf w.authResp) = false →
      (mainRun a w).2 = [.authRequest (authUrl a)]) ∧
    (∀ e, formBody w.fs a.paths = .err e →
      hasUpload (mainRun a w).2 = false) ∧
    (∀ e c t, cookieAndCsrf w.authResp = .ok c t →
      formBody w.fs a.paths = .err e → (mainRun a w).1 = .err e) := by
  refine ⟨?_, ?_, ?_, ?_⟩
  · cases h1 : cookieAndCsrf w.authResp with
    | panicked => simp [mainRun, h1]
    | err e => simp [mainRun, h1]
    | ok cookie csrf =>
      cases h2 : formBody w.fs a.paths with
      | err e => simp [mainRun, h1, h2]
      | ok parts len =>
        by_cases hd : a.dryRun
        · simp [mainRun, h1, h2, hd]
        · cases h3 : w.uploadResp <;> simp [mainRun, h1, h2, hd, h3]
  · intro hA
    cases h1 : cookieAndCsrf w.authResp with
    | panicked => simp [mainRun, h1]
    | err e => simp [mainRun, h1]
    | ok cookie csrf => rw [h1] at hA; exact absurd hA (by simp [authOk])
  · intro e he
    cases h1 : cookieAndCsrf w.authResp with
    | panicked => simp [mainRun, h1, hasUpload]
    | err e2 => simp [mainRun, h1, hasUpload]
    | ok cookie csrf => simp [mainRun, h1, he, hasUpload]
  · intro e c t h1 he
    simp [mainRun, h1, he]

/-- C1 witness: in the concrete no-files world (auth succeeds, no root
path exists), no upload request was issued and the collection failure
`NoFilesFound("/a /b")` is the run's result (though the auth request was
already made, per the counterexample). -/
theorem pipeline_stage_order_witness :
    hasUpload (mainRun demoArgs noFilesWorld).2 = false ∧
    (mainRun demoArgs noFilesWorld).1 = .err (.noFilesFound "/a /b") :=
  ⟨(pipeline_stage_order demoArgs noFilesWorld).2.2.1
      (.noFilesFound "/a /b") (by decide),
   (pipeline_stage_order demoArgs noFilesWorld).2.2.2
      (.noFilesFound "/a /b") "ck" "tk" (by decide) (by decide)⟩

/-- C9: with `dryRun = true` the upload stage never issues a network call
— the trace contains no upload request for any batch contents and any
world — and when the run reaches the upload stage (result `Ok`), the
trace instead ends with the rendering of the fully-configured request
(method POST, upload URL, its headers) and the form's field list. -/
theorem dry_run_no_upload (a : Args) (w : World) (h : a.dryRun = true) :
    hasUpload (mainRun a w).2 = false ∧
    ((mainRun a w).1 = .ok →
      ∃ len hs fields, (mainRun a w).2 =
        [.authRequest (authUrl a), .printSize len,
         .printRequest "POST" (uploadUrl a) hs, .printForm fields]) := by
  cases h1 : cookieAndCsrf w.authResp with
  | panicked => simp [mainRun, h1, hasUpload]
  | err e => simp [mainRun, h1, hasUpload]
  | ok cookie csrf =>
    cases h2 : formBody w.fs a.paths with
    | err e => simp [mainRun, h1, h2, hasUpload]
    | ok parts len =>
      refine ⟨by simp [mainRun, h1, h2, h, hasUpload], ?_⟩
      intro _
      exact ⟨len, [("cookie", cookie), ("x-csrf-token", csrf)],
        parts.map FormPart.fieldName, by simp [mainRun, h1, h2, h]⟩

/-- C9 witness: the concrete dry run over `demoFS` issues no upload
request and renders the request and field list. -/
theorem dry_run_no_upload_witness :
    hasUpload (mainRun demoArgsDry demoWorld).2 = false ∧
    ∃ len hs fields, (mainRun demoArgsDry demoWorld).2 =
      [.authRequest (authUrl demoArgsDry), .printSize len,
       .printRequest "POST" (uploadUrl demoArgsDry) hs,
       .printForm fields] := by
  have h := dry_run_no_upload demoArgsDry demoWorld rfl
  exact ⟨h.1, h.2 (by decide)⟩

end Dark

